import Mathlib

/-!
Formal model of the `python` video filter of `libavfilter/vf_python.c`.

The C file embeds a CPython interpreter into an FFmpeg filter stage.  We give
a shallow embedding of the five functions that carry the filter's behaviour
(`filter_frame`, `check_and_call_init`, `check_and_call_uninit`, `init`,
`uninit`).  The CPython C API is modelled by an abstract environment `PyEnv`
that decides, per Python object, whether an import / attribute lookup /
callable check / call succeeds, and every API interaction is recorded in a
trace of `PyEvent`s.  Python object references are modelled as pairs of a
fresh reference token (each API that returns a *new reference* allocates a
fresh token from a counter threaded through `PyIState`) and an object
identity; `Py_DECREF` of a reference is the trace event `evDecref tok`, and
`Py_DECREF` applied to a NULL pointer — undefined behaviour in C — is the
distinguished event `evDecrefNull`.  The pending-exception flag of the
interpreter is the `errSet` field of `PyIState`: a failing import, attribute
lookup or call sets it, and nothing in the modelled code ever clears it.

Machine doubles are modelled as exact rationals (the marshalled timestamp is
`pts * time_base` as a rational), C `long`/pointer values as integers.
-/

namespace VfPython

/-- A marshalled Python value, as produced by the object-construction calls
of the source (`PyFloat_FromDouble`, `PyLong_FromLong`,
`PyUnicode_DecodeFSDefault`).  A `str none` records a
`PyUnicode_DecodeFSDefault(NULL)` — decoding a null C string. -/
inductive PyVal where
  | float (q : ℚ)
  | int (n : ℤ)
  | str (s : Option String)
deriving DecidableEq, Repr

/-- The per-frame data `filter_frame` reads from the incoming `AVFrame`:
`in->pts`, `in->width`, `in->height` and the address `in->data[0]`. -/
structure Frame where
  pts : ℤ
  width : ℤ
  height : ℤ
  dataAddr : ℤ
deriving DecidableEq, Repr

/-- An owned reference to a Python object: a fresh reference token (one per
*new reference* handed out by the API) together with the object identity the
environment uses to decide behaviour. -/
structure PyRef where
  tok : ℕ
  obj : ℕ
deriving DecidableEq, Repr

/-- One interaction with the embedded interpreter or the host pipeline. -/
inductive PyEvent where
  /-- `Py_Initialize()` -/
  | evInitPy
  /-- `PyImport_Import` of the (decoded) module name; `res` is the token of
  the new module reference, `none` on failure. -/
  | evImport (name : Option String) (res : Option ℕ)
  /-- `PyObject_GetAttrString(module, name)`; a `none` module or name records
  the (undefined-behaviour) lookup through a NULL pointer. -/
  | evGetAttr (modTok : Option ℕ) (name : Option String) (res : Option ℕ)
  /-- `PyCallable_Check` on the referenced object. -/
  | evCallableCheck (tok : ℕ) (res : Bool)
  /-- `PyUnicode_DecodeFSDefault` on a C string; `none` is a NULL pointer. -/
  | evDecodeFS (s : Option String)
  /-- `PyTuple_New size`, the new tuple getting reference token `tok`.  The
  items stored into the tuple with `PyTuple_SetItem` (which steals the item
  references) are carried by the subsequent `evCall` as plain values. -/
  | evNewTuple (size : ℕ) (tok : ℕ)
  /-- `PyObject_CallObject(func, args)`; `res` is the token of the new
  result reference, `none` when the call raised. -/
  | evCall (funcTok : ℕ) (args : List PyVal) (res : Option ℕ)
  /-- `PyObject_CallObject(NULL, args)` — undefined behaviour in C. -/
  | evCallNull (args : List PyVal)
  /-- `Py_DECREF` / `Py_XDECREF` of the reference with token `tok`. -/
  | evDecref (tok : ℕ)
  /-- `Py_DECREF(NULL)` — undefined behaviour in C. -/
  | evDecrefNull
  /-- `Py_FinalizeEx()` -/
  | evFinalize
  /-- `av_frame_make_writable(in)` -/
  | evMakeWritable
  /-- `ff_filter_frame(outlink, in)` — the frame forwarded downstream. -/
  | evForward (fr : Frame)
  /-- `av_log(..., AV_LOG_ERROR, msg)` -/
  | evLog (msg : String)
deriving DecidableEq, Repr

/-- Interpreter-side state threaded through the model: the next fresh
reference token, and the pending-exception flag (`PyErr_Occurred`). -/
structure PyIState where
  nextTok : ℕ
  errSet : Bool
deriving DecidableEq, Repr

/-- The behaviour of the embedded interpreter and of the downstream pipeline
stage, abstracted: which module names import to which object, attribute
lookup per object, callability per object, call outcome per callee object
and argument list (`none` = the call raised), and the return code
`ff_filter_frame` produces for a forwarded frame. -/
structure PyEnv where
  importObj : String → Option ℕ
  attrObj : ℕ → String → Option ℕ
  callable : ℕ → Bool
  callRes : ℕ → List PyVal → Option ℕ
  ffResult : Frame → ℤ

/-- The option fields of `PythonContext` (all `AV_OPT_TYPE_STRING` with
default `NULL`, hence `Option String`). -/
structure PythonContext where
  module : Option String
  init_function : Option String
  init_args : Option String
  filter_function : Option String
  uninit_function : Option String
deriving DecidableEq, Repr

/-- The two persistent `PyObject *` fields of `PythonContext` (`pModule`,
`pFunc`); `none` models a NULL pointer. -/
structure PyBound where
  pModule : Option PyRef
  pFunc : Option PyRef
deriving DecidableEq, Repr

/-- Result of an API primitive that returns a (possibly NULL) new
reference. -/
structure PyOut where
  res : Option PyRef
  st : PyIState
  tr : List PyEvent
deriving DecidableEq, Repr

/-- `PyImport_Import` on the decoded module name. -/
def pyImport (env : PyEnv) (name : Option String) (s : PyIState) : PyOut :=
  match name with
  | some n =>
    match env.importObj n with
    | some o => ⟨some ⟨s.nextTok, o⟩, ⟨s.nextTok + 1, s.errSet⟩, [.evImport (some n) (some s.nextTok)]⟩
    | none => ⟨none, ⟨s.nextTok, true⟩, [.evImport (some n) none]⟩
  | none => ⟨none, ⟨s.nextTok, true⟩, [.evImport none none]⟩

/-- `PyObject_GetAttrString(m, name)`.  The catch-all branch is the lookup
through a NULL module or NULL name, undefined behaviour in C, modelled as a
failing lookup. -/
def pyGetAttr (env : PyEnv) (m : Option PyRef) (name : Option String) (s : PyIState) : PyOut :=
  match m, name with
  | some r, some n =>
    match env.attrObj r.obj n with
    | some o =>
      ⟨some ⟨s.nextTok, o⟩, ⟨s.nextTok + 1, s.errSet⟩,
        [.evGetAttr (some r.tok) (some n) (some s.nextTok)]⟩
    | none => ⟨none, ⟨s.nextTok, true⟩, [.evGetAttr (some r.tok) (some n) none]⟩
  | _, _ => ⟨none, ⟨s.nextTok, true⟩, [.evGetAttr (m.map PyRef.tok) name none]⟩

/-- `PyObject_CallObject(f, args)`; a failing call leaves the raised
exception pending (`errSet`).  Calling through a NULL function pointer is
undefined behaviour in C, modelled as a failing call. -/
def pyCall (env : PyEnv) (f : Option PyRef) (args : List PyVal) (s : PyIState) : PyOut :=
  match f with
  | some fr =>
    match env.callRes fr.obj args with
    | some o => ⟨some ⟨s.nextTok, o⟩, ⟨s.nextTok + 1, s.errSet⟩, [.evCall fr.tok args (some s.nextTok)]⟩
    | none => ⟨none, ⟨s.nextTok, true⟩, [.evCall fr.tok args none]⟩
  | none => ⟨none, ⟨s.nextTok, true⟩, [.evCallNull args]⟩

/-- `Py_DECREF(p)` — no NULL guard; `Py_DECREF(NULL)` is undefined
behaviour in C, recorded as `evDecrefNull`. -/
def py_DECREF : Option PyRef → List PyEvent
  | some r => [.evDecref r.tok]
  | none => [.evDecrefNull]

/-- `Py_XDECREF(p)` (and the guarded `if (pValue != NULL) Py_DECREF(pValue)`
of `filter_frame`): NULL is skipped. -/
def py_XDECREF : Option PyRef → List PyEvent
  | some r => [.evDecref r.tok]
  | none => []

/-- `AVERROR(EINVAL)`: FFmpeg negates the POSIX error code (EINVAL = 22). -/
def AVERROR_EINVAL : ℤ := -22

/-- Result of `check_and_call_init` / `check_and_call_uninit`. -/
structure ChkOut where
  ret : ℤ
  st : PyIState
  tr : List PyEvent
deriving DecidableEq, Repr

/-- Result of `filter_frame`: the return code (`ff_filter_frame`'s result),
the persistent context fields (returned unchanged: the source never writes
`pModule`/`pFunc` in `filter_frame`), the interpreter state and the trace. -/
structure FrameOut where
  ret : ℤ
  bound : PyBound
  st : PyIState
  tr : List PyEvent
deriving DecidableEq, Repr

/-- Result of `init`: return code, the stored `pModule`/`pFunc` fields,
interpreter state and trace. -/
structure InitOut where
  ret : ℤ
  bound : PyBound
  st : PyIState
  tr : List PyEvent
deriving DecidableEq, Repr

/-- Result of `uninit`. -/
structure UninitOut where
  st : PyIState
  tr : List PyEvent
deriving DecidableEq, Repr

/-- Result of a whole stage run. -/
structure RunOut where
  ret : ℤ
  tr : List PyEvent
deriving DecidableEq, Repr

/-- The 4-element positional argument tuple `filter_frame` builds, lines
109–121 of the source: `PyFloat_FromDouble(in->pts * av_q2d(inlink->time_base))`,
`PyLong_FromLong(in->width)`, `PyLong_FromLong(in->height)`,
`PyLong_FromLong(in->data[0])`. -/
def frameArgs (timeBase : ℚ) (fr : Frame) : List PyVal :=
  [.float (fr.pts * timeBase), .int fr.width, .int fr.height, .int fr.dataAddr]

/-- `filter_frame` (source lines 100–130): make the frame writable, build the
4-tuple, call `pFunc`, drop the tuple, drop the result if the call produced
one, and forward the original frame with `ff_filter_frame`. -/
def filter_frame (env : PyEnv) (timeBase : ℚ) (b : PyBound) (fr : Frame) (s : PyIState) : FrameOut :=
  let tArgs := s.nextTok
  let s1 : PyIState := ⟨s.nextTok + 1, s.errSet⟩
  let c := pyCall env b.pFunc (frameArgs timeBase fr) s1
  ⟨env.ffResult fr, b, c.st,
    [.evMakeWritable, .evNewTuple 4 tArgs] ++ c.tr ++ [.evDecref tArgs]
      ++ py_XDECREF c.res ++ [.evForward fr]⟩

/-- `check_and_call_init` (source lines 132–157).  When `init_function` is
set: resolve it on `pModule`; if it resolved and is callable, build a
1-tuple holding `PyUnicode_DecodeFSDefault(init_args)` (no NULL guard on
`init_args`), call it, drop the tuple, `Py_XDECREF` the result and the
function, and return 0 — the call's own outcome is never inspected.
Resolution failure returns -1. -/
def check_and_call_init (env : PyEnv) (pModule : Option PyRef)
    (ifun iargs : Option String) (s : PyIState) : ChkOut :=
  match ifun with
  | none => ⟨0, s, []⟩
  | some _ =>
    let a := pyGetAttr env pModule ifun s
    match a.res with
    | some f =>
      if env.callable f.obj then
        let tArgs := a.st.nextTok
        let s2 : PyIState := ⟨a.st.nextTok + 1, a.st.errSet⟩
        let c := pyCall env (some f) [.str iargs] s2
        ⟨0, c.st,
          a.tr ++ [.evCallableCheck f.tok true, .evNewTuple 1 tArgs, .evDecodeFS iargs]
            ++ c.tr ++ [.evDecref tArgs] ++ py_XDECREF c.res ++ [.evDecref f.tok]⟩
      else
        ⟨-1, a.st, a.tr ++ [.evCallableCheck f.tok false, .evDecref f.tok]⟩
    | none => ⟨-1, a.st, a.tr⟩

/-- `check_and_call_uninit` (source lines 159–180): as for the initializer
but with an empty argument tuple. -/
def check_and_call_uninit (env : PyEnv) (pModule : Option PyRef)
    (ufun : Option String) (s : PyIState) : ChkOut :=
  match ufun with
  | none => ⟨0, s, []⟩
  | some _ =>
    let a := pyGetAttr env pModule ufun s
    match a.res with
    | some f =>
      if env.callable f.obj then
        let tArgs := a.st.nextTok
        let s2 : PyIState := ⟨a.st.nextTok + 1, a.st.errSet⟩
        let c := pyCall env (some f) [] s2
        ⟨0, c.st,
          a.tr ++ [.evCallableCheck f.tok true, .evNewTuple 0 tArgs]
            ++ c.tr ++ [.evDecref tArgs] ++ py_XDECREF c.res ++ [.evDecref f.tok]⟩
      else
        ⟨-1, a.st, a.tr ++ [.evCallableCheck f.tok false, .evDecref f.tok]⟩
    | none => ⟨-1, a.st, a.tr⟩

/-- `init` (source lines 183–214): `Py_Initialize`, decode the module name
(`pName`, a new reference, dropped right after the import), import it, and
on success resolve `filter_function`; a NULL or non-callable `pFunc` fails
with `AVERROR(EINVAL)`, then `check_and_call_init` runs and a negative
result also fails with `AVERROR(EINVAL)`.  A failed import fails with
`AVERROR(EINVAL)`.  The resolved references are stored in the context. -/
def init (env : PyEnv) (cfg : PythonContext) (s : PyIState) : InitOut :=
  let tName := s.nextTok
  let s1 : PyIState := ⟨s.nextTok + 1, s.errSet⟩
  let im := pyImport env cfg.module s1
  let tr0 : List PyEvent := [.evInitPy, .evDecodeFS cfg.module] ++ im.tr ++ [.evDecref tName]
  match im.res with
  | some _ =>
    let ga := pyGetAttr env im.res cfg.filter_function im.st
    match ga.res with
    | some f =>
      if env.callable f.obj then
        let ci := check_and_call_init env im.res cfg.init_function cfg.init_args ga.st
        if ci.ret < 0 then
          ⟨AVERROR_EINVAL, ⟨im.res, ga.res⟩, ci.st,
            tr0 ++ ga.tr ++ [.evCallableCheck f.tok true] ++ ci.tr
              ++ [.evLog "could not call init function"]⟩
        else
          ⟨0, ⟨im.res, ga.res⟩, ci.st, tr0 ++ ga.tr ++ [.evCallableCheck f.tok true] ++ ci.tr⟩
      else
        ⟨AVERROR_EINVAL, ⟨im.res, ga.res⟩, ga.st,
          tr0 ++ ga.tr ++ [.evCallableCheck f.tok false, .evLog "could not load filter function"]⟩
    | none =>
      ⟨AVERROR_EINVAL, ⟨im.res, none⟩, ga.st,
        tr0 ++ ga.tr ++ [.evLog "could not load filter function"]⟩
  | none => ⟨AVERROR_EINVAL, ⟨none, none⟩, im.st, tr0 ++ [.evLog "could not load module"]⟩

/-- `uninit` (source lines 216–228): run `check_and_call_uninit` (logging on
a negative result), then unconditionally `Py_DECREF` both `pFunc` and
`pModule` — there is no NULL guard — and `Py_FinalizeEx`. -/
def uninit (env : PyEnv) (cfg : PythonContext) (b : PyBound) (s : PyIState) : UninitOut :=
  let cu := check_and_call_uninit env b.pModule cfg.uninit_function s
  let lg : List PyEvent := if cu.ret < 0 then [.evLog "could not call uninit function"] else []
  ⟨cu.st, cu.tr ++ lg ++ py_DECREF b.pFunc ++ py_DECREF b.pModule ++ [.evFinalize]⟩

/-- The state the stage starts from: no references handed out yet, no
pending exception. -/
def st0 : PyIState := ⟨0, false⟩

/-- Modelled from the spec: the host filtering loop (libavfilter framework,
not part of this file's source) hands arriving frames to `filter_frame` one
at a time, in arrival order, threading the stage's context. -/
def processFrames (env : PyEnv) (timeBase : ℚ) (b : PyBound) (frames : List Frame)
    (s : PyIState) : PyBound × PyIState × List PyEvent :=
  match frames with
  | [] => (b, s, [])
  | fr :: rest =>
    let o := filter_frame env timeBase b fr s
    let r := processFrames env timeBase o.bound rest o.st
    (r.1, r.2.1, o.tr ++ r.2.2)

/-- Modelled from the spec: the stage lifecycle driven by the host pipeline
(libavfilter framework, not part of this file's source).  Activation runs
`init`; if activation fails the stage goes directly to Terminated, surfacing
the activation error, and no frames are ever processed; otherwise the stage
is in Steady state, each arriving frame is handled in order, and
deactivation runs `uninit`. -/
def runStage (env : PyEnv) (cfg : PythonContext) (timeBase : ℚ) (frames : List Frame) : RunOut :=
  let i := init env cfg st0
  if i.ret = 0 then
    let p := processFrames env timeBase i.bound frames i.st
    let u := uninit env cfg p.1 p.2.1
    ⟨0, i.tr ++ p.2.2 ++ u.tr⟩
  else
    ⟨i.ret, i.tr⟩

/-- Does this event call a function with exactly this argument list? -/
def isCallWith (args : List PyVal) : PyEvent → Bool
  | .evCall _ a _ => decide (a = args)
  | _ => false

/-- Number of calls carrying exactly this argument list. -/
def countCallsWith (t : List PyEvent) (args : List PyVal) : ℕ :=
  t.countP (isCallWith args)

/-- Is this event any invocation of a Python callable? -/
def isCallEv : PyEvent → Bool
  | .evCall _ _ _ => true
  | .evCallNull _ => true
  | _ => false

/-- Number of Python-call events in a trace. -/
def countCalls (t : List PyEvent) : ℕ := t.countP isCallEv

/-- Is this event a forward of a frame downstream? -/
def isForwardEv : PyEvent → Bool
  | .evForward _ => true
  | _ => false

/-- Number of frames forwarded downstream in a trace. -/
def countForwards (t : List PyEvent) : ℕ := t.countP isForwardEv

/-- Is this event a `Py_FinalizeEx`? -/
def isFinEv : PyEvent → Bool
  | .evFinalize => true
  | _ => false

/-- Number of `Py_FinalizeEx` events in a trace. -/
def countFinalize (t : List PyEvent) : ℕ := t.countP isFinEv

/-- Is this event a release of the reference with token `tok`? -/
def isDecrefOf (tok : ℕ) : PyEvent → Bool
  | .evDecref k => decide (k = tok)
  | _ => false

/-- Number of releases of the reference with token `tok`. -/
def countDecref (t : List PyEvent) (tok : ℕ) : ℕ := t.countP (isDecrefOf tok)

/-- Is this event a `Py_DECREF(NULL)`? -/
def isDecrefNullEv : PyEvent → Bool
  | .evDecrefNull => true
  | _ => false

/-- Number of `Py_DECREF(NULL)` events (undefined behaviour in C). -/
def countDecrefNull (t : List PyEvent) : ℕ := t.countP isDecrefNullEv

/-- The (callee token, argument list) pairs of the call events of a trace,
in order. -/
def callsOf (t : List PyEvent) : List (ℕ × List PyVal) :=
  t.filterMap fun e => match e with
    | .evCall f a _ => some (f, a)
    | _ => none

/-- Successful resolution of the optional initializer: if `init_function` is
set, it names a callable attribute of the module object `mo`. -/
def initOk (env : PyEnv) (mo : ℕ) (cfg : PythonContext) : Prop :=
  ∀ iname, cfg.init_function = some iname →
    ∃ io, env.attrObj mo iname = some io ∧ env.callable io = true

/-- The outcome `PyObject_GetAttrString` is modelled to produce: a lookup
through a NULL module or NULL name yields NULL. -/
def attrLookup (env : PyEnv) (m : Option PyRef) (n : Option String) : Option ℕ :=
  match m, n with
  | some r, some nm => env.attrObj r.obj nm
  | _, _ => none

/-- The three activation-failure situations of the spec's error taxonomy:
the module cannot be imported, `filter_function` names a missing attribute,
or it names a non-callable one. -/
def activationBroken (env : PyEnv) (cfg : PythonContext) : Prop :=
  cfg.module.bind env.importObj = none ∨
  (∃ mo, cfg.module.bind env.importObj = some mo ∧
    cfg.filter_function.bind (env.attrObj mo) = none) ∨
  (∃ mo fo, cfg.module.bind env.importObj = some mo ∧
    cfg.filter_function.bind (env.attrObj mo) = some fo ∧ env.callable fo = false)

/-- A well-behaved interpreter: module `demo` holds callables `process`
(the handler, object 20), `setup` (object 30) and `teardown` (object 40);
every call succeeds, producing object 99; forwarding always returns 0. -/
def envA : PyEnv :=
  ⟨fun n => if n = "demo" then some 10 else none,
   fun o a =>
     if o = 10 ∧ a = "process" then some 20
     else if o = 10 ∧ a = "setup" then some 30
     else if o = 10 ∧ a = "teardown" then some 40
     else none,
   fun o => o = 20 ∨ o = 30 ∨ o = 40,
   fun _ _ => some 99,
   fun _ => 0⟩

/-- As `envA` but every Python call raises. -/
def envErr : PyEnv :=
  ⟨envA.importObj, envA.attrObj, envA.callable, fun _ _ => none, envA.ffResult⟩

/-- As `envA` but calling the initializer object (`setup`, object 30)
raises; every other call succeeds. -/
def envC4 : PyEnv :=
  ⟨envA.importObj, envA.attrObj, envA.callable,
   fun o _ => if o = 30 then none else some 99,
   envA.ffResult⟩

/-- As `envA` but calling the finalizer object (`teardown`, object 40)
raises; every other call succeeds. -/
def envUErr : PyEnv :=
  ⟨envA.importObj, envA.attrObj, envA.callable,
   fun o _ => if o = 40 then none else some 99,
   envA.ffResult⟩

/-- As `envA` but no module can be imported. -/
def envNoMod : PyEnv :=
  ⟨fun _ => none, envA.attrObj, envA.callable, envA.callRes, envA.ffResult⟩

/-- As `envA` but no attribute resolves. -/
def envNoAttr : PyEnv :=
  ⟨envA.importObj, fun _ _ => none, envA.callable, envA.callRes, envA.ffResult⟩

/-- As `envA` but no object is callable. -/
def envNoCall : PyEnv :=
  ⟨envA.importObj, envA.attrObj, fun _ => false, envA.callRes, envA.ffResult⟩

/-- Configuration with initializer, no finalizer. -/
def cfgA : PythonContext := ⟨some "demo", some "setup", some "gain=2", some "process", none⟩

/-- Configuration with finalizer, no initializer. -/
def cfgB : PythonContext := ⟨some "demo", none, none, some "process", some "teardown"⟩

/-- Configuration with neither initializer nor finalizer. -/
def cfgC : PythonContext := ⟨some "demo", none, none, some "process", none⟩

/-- Configuration with initializer set but `init_args` unset (NULL). -/
def cfgD : PythonContext := ⟨some "demo", some "setup", none, some "process", none⟩

/-- A sample frame. -/
def frA : Frame := ⟨40, 64, 64, 4096⟩

/-- A second sample frame. -/
def frB : Frame := ⟨80, 64, 64, 8192⟩

/-- A sample input-link time base of 1/25 second. -/
def tbA : ℚ := 1 / 25

/-! ### Characterizations of the API primitives -/

theorem pyImport_eq_none (env : PyEnv) (n : Option String) (s : PyIState)
    (h : n.bind env.importObj = none) :
    pyImport env n s = ⟨none, ⟨s.nextTok, true⟩, [.evImport n none]⟩ := by
  cases n with
  | none => rfl
  | some nm => simp only [Option.bind] at h; simp [pyImport, h]

theorem pyImport_eq_some (env : PyEnv) (n : Option String) (s : PyIState) (o : ℕ)
    (h : n.bind env.importObj = some o) :
    pyImport env n s =
      ⟨some ⟨s.nextTok, o⟩, ⟨s.nextTok + 1, s.errSet⟩, [.evImport n (some s.nextTok)]⟩ := by
  cases n with
  | none => simp at h
  | some nm => simp only [Option.bind] at h; simp [pyImport, h]

theorem pyGetAttr_eq_none (env : PyEnv) (m : Option PyRef) (n : Option String) (s : PyIState)
    (h : attrLookup env m n = none) :
    pyGetAttr env m n s = ⟨none, ⟨s.nextTok, true⟩, [.evGetAttr (m.map PyRef.tok) n none]⟩ := by
  cases m with
  | none => cases n <;> rfl
  | some r =>
    cases n with
    | none => rfl
    | some nm => simp only [attrLookup] at h; simp [pyGetAttr, h]

theorem pyGetAttr_eq_some (env : PyEnv) (m : Option PyRef) (n : Option String) (s : PyIState)
    (o : ℕ) (h : attrLookup env m n = some o) :
    pyGetAttr env m n s =
      ⟨some ⟨s.nextTok, o⟩, ⟨s.nextTok + 1, s.errSet⟩,
        [.evGetAttr (m.map PyRef.tok) n (some s.nextTok)]⟩ := by
  cases m with
  | none => cases n <;> simp [attrLookup] at h
  | some r =>
    cases n with
    | none => simp [attrLookup] at h
    | some nm => simp only [attrLookup] at h; simp [pyGetAttr, h]

theorem pyCall_eq_some (env : PyEnv) (f : PyRef) (args : List PyVal) (s : PyIState) (o : ℕ)
    (h : env.callRes f.obj args = some o) :
    pyCall env (some f) args s =
      ⟨some ⟨s.nextTok, o⟩, ⟨s.nextTok + 1, s.errSet⟩, [.evCall f.tok args (some s.nextTok)]⟩ := by
  simp [pyCall, h]

theorem pyCall_eq_none (env : PyEnv) (f : PyRef) (args : List PyVal) (s : PyIState)
    (h : env.callRes f.obj args = none) :
    pyCall env (some f) args s = ⟨none, ⟨s.nextTok, true⟩, [.evCall f.tok args none]⟩ := by
  simp [pyCall, h]

/-! ### Generic event-count lemmas for the primitives -/

theorem countP_pyImport (env : PyEnv) (n : Option String) (s : PyIState) (p : PyEvent → Bool)
    (h : ∀ a b, p (.evImport a b) = false) : (pyImport env n s).tr.countP p = 0 := by
  unfold pyImport
  split
  · split <;> simp [List.countP_cons, h]
  · simp [List.countP_cons, h]

theorem countP_pyGetAttr (env : PyEnv) (m : Option PyRef) (n : Option String) (s : PyIState)
    (p : PyEvent → Bool) (h : ∀ a b c, p (.evGetAttr a b c) = false) :
    (pyGetAttr env m n s).tr.countP p = 0 := by
  unfold pyGetAttr
  split
  · split <;> simp [List.countP_cons, h]
  · simp [List.countP_cons, h]

theorem countP_pyCall (env : PyEnv) (f : Option PyRef) (args : List PyVal) (s : PyIState)
    (p : PyEvent → Bool) (h1 : ∀ a b c, p (.evCall a b c) = false)
    (h2 : ∀ a, p (.evCallNull a) = false) : (pyCall env f args s).tr.countP p = 0 := by
  unfold pyCall
  split
  · split <;> simp [List.countP_cons, h1]
  · simp [List.countP_cons, h2]

theorem countP_py_XDECREF (r : Option PyRef) (p : PyEvent → Bool)
    (h : ∀ a, p (.evDecref a) = false) : (py_XDECREF r).countP p = 0 := by
  cases r <;> simp [py_XDECREF, List.countP_cons, h]

theorem countP_py_DECREF (r : Option PyRef) (p : PyEvent → Bool)
    (h1 : ∀ a, p (.evDecref a) = false) (h2 : p .evDecrefNull = false) :
    (py_DECREF r).countP p = 0 := by
  cases r <;> simp [py_DECREF, List.countP_cons, h1, h2]

/-! ### `filter_frame` lemmas -/

theorem filter_frame_ret (env : PyEnv) (tb : ℚ) (b : PyBound) (fr : Frame) (s : PyIState) :
    (filter_frame env tb b fr s).ret = env.ffResult fr := rfl

theorem filter_frame_bound (env : PyEnv) (tb : ℚ) (b : PyBound) (fr : Frame) (s : PyIState) :
    (filter_frame env tb b fr s).bound = b := rfl

theorem filter_frame_forward_last (env : PyEnv) (tb : ℚ) (b : PyBound) (fr : Frame)
    (s : PyIState) : ∃ t, (filter_frame env tb b fr s).tr = t ++ [.evForward fr] := by
  refine ⟨[.evMakeWritable, .evNewTuple 4 s.nextTok]
    ++ (pyCall env b.pFunc (frameArgs tb fr) ⟨s.nextTok + 1, s.errSet⟩).tr
    ++ [.evDecref s.nextTok]
    ++ py_XDECREF (pyCall env b.pFunc (frameArgs tb fr) ⟨s.nextTok + 1, s.errSet⟩).res, ?_⟩
  simp [filter_frame]

theorem countForwards_filter_frame (env : PyEnv) (tb : ℚ) (b : PyBound) (fr : Frame)
    (s : PyIState) : countForwards (filter_frame env tb b fr s).tr = 1 := by
  unfold filter_frame countForwards
  simp [List.countP_append, List.countP_cons, isForwardEv,
    countP_pyCall, countP_py_XDECREF]

theorem countFinalize_filter_frame (env : PyEnv) (tb : ℚ) (b : PyBound) (fr : Frame)
    (s : PyIState) : countFinalize (filter_frame env tb b fr s).tr = 0 := by
  unfold filter_frame countFinalize
  simp [List.countP_append, List.countP_cons, isFinEv,
    countP_pyCall, countP_py_XDECREF]

theorem countCallsWith_filter_frame (env : PyEnv) (tb : ℚ) (b : PyBound) (fr : Frame)
    (s : PyIState) (a2 : List PyVal) (h : a2.length ≠ 4) :
    countCallsWith (filter_frame env tb b fr s).tr a2 = 0 := by
  have hne : a2 ≠ frameArgs tb fr := by
    intro he; apply h; rw [he]; rfl
  unfold filter_frame countCallsWith
  simp only [List.countP_append, List.countP_cons]
  rw [countP_py_XDECREF _ _ (by intro a; rfl)]
  have hc : (pyCall env b.pFunc (frameArgs tb fr) ⟨s.nextTok + 1, s.errSet⟩).tr.countP
      (isCallWith a2) = 0 := by
    unfold pyCall
    rcases b.pFunc with _ | f
    · simp [List.countP_cons, isCallWith]
    · rcases hr : env.callRes f.obj (frameArgs tb fr) with _ | o <;>
        simp [hr, List.countP_cons, isCallWith, Ne.symm hne]
  rw [hc]
  simp [isCallWith]

theorem countP_ccw_pyCall_ne (env : PyEnv) (f : Option PyRef) (args : List PyVal)
    (s : PyIState) (a2 : List PyVal) (h : ¬(args = a2)) :
    (pyCall env f args s).tr.countP (isCallWith a2) = 0 := by
  unfold pyCall
  rcases f with _ | fr
  · simp [isCallWith]
  · rcases hr : env.callRes fr.obj args with _ | o <;>
      simp [hr, List.countP_cons, isCallWith, h]

theorem countP_ccw_pyCall_eq (env : PyEnv) (f : PyRef) (args : List PyVal) (s : PyIState) :
    (pyCall env (some f) args s).tr.countP (isCallWith args) = 1 := by
  unfold pyCall
  rcases hr : env.callRes f.obj args with _ | o <;> simp [hr, List.countP_cons, isCallWith]

theorem countP_cc_pyCall_some (env : PyEnv) (f : PyRef) (args : List PyVal) (s : PyIState) :
    (pyCall env (some f) args s).tr.countP isCallEv = 1 := by
  unfold pyCall
  rcases hr : env.callRes f.obj args with _ | o <;> simp [hr, List.countP_cons, isCallEv]

theorem countCalls_filter_frame_some (env : PyEnv) (tb : ℚ) (b : PyBound) (f : PyRef)
    (hf : b.pFunc = some f) (fr : Frame) (s : PyIState) :
    countCalls (filter_frame env tb b fr s).tr = 1 := by
  unfold filter_frame countCalls
  simp only [List.countP_append, List.countP_cons, hf]
  rw [countP_py_XDECREF _ _ (by intro a; rfl)]
  rw [countP_cc_pyCall_some]
  simp [isCallEv]

/-! ### `check_and_call_init` / `check_and_call_uninit` lemmas -/

theorem chkInit_unset (env : PyEnv) (m : Option PyRef) (a : Option String) (s : PyIState) :
    check_and_call_init env m none a s = ⟨0, s, []⟩ := rfl

theorem chkUninit_unset (env : PyEnv) (m : Option PyRef) (s : PyIState) :
    check_and_call_uninit env m none s = ⟨0, s, []⟩ := rfl

theorem countForwards_chkInit (env : PyEnv) (m : Option PyRef) (ifn a : Option String)
    (s : PyIState) : countForwards (check_and_call_init env m ifn a s).tr = 0 := by
  unfold check_and_call_init countForwards
  cases ifn with
  | none => simp
  | some nm =>
    rcases hres : (pyGetAttr env m (some nm) s).res with _ | fo
    · simp [hres, countP_pyGetAttr, isForwardEv]
    · by_cases hc : env.callable fo.obj <;>
        simp [hres, hc, List.countP_append, List.countP_cons, isForwardEv,
          countP_pyGetAttr, countP_pyCall, countP_py_XDECREF]

theorem countForwards_chkUninit (env : PyEnv) (m : Option PyRef) (ufn : Option String)
    (s : PyIState) : countForwards (check_and_call_uninit env m ufn s).tr = 0 := by
  unfold check_and_call_uninit countForwards
  cases ufn with
  | none => simp
  | some nm =>
    rcases hres : (pyGetAttr env m (some nm) s).res with _ | fo
    · simp [hres, countP_pyGetAttr, isForwardEv]
    · by_cases hc : env.callable fo.obj <;>
        simp [hres, hc, List.countP_append, List.countP_cons, isForwardEv,
          countP_pyGetAttr, countP_pyCall, countP_py_XDECREF]

theorem countFinalize_chkInit (env : PyEnv) (m : Option PyRef) (ifn a : Option String)
    (s : PyIState) : countFinalize (check_and_call_init env m ifn a s).tr = 0 := by
  unfold check_and_call_init countFinalize
  cases ifn with
  | none => simp
  | some nm =>
    rcases hres : (pyGetAttr env m (some nm) s).res with _ | fo
    · simp [hres, countP_pyGetAttr, isFinEv]
    · by_cases hc : env.callable fo.obj <;>
        simp [hres, hc, List.countP_append, List.countP_cons, isFinEv,
          countP_pyGetAttr, countP_pyCall, countP_py_XDECREF]

theorem countFinalize_chkUninit (env : PyEnv) (m : Option PyRef) (ufn : Option String)
    (s : PyIState) : countFinalize (check_and_call_uninit env m ufn s).tr = 0 := by
  unfold check_and_call_uninit countFinalize
  cases ufn with
  | none => simp
  | some nm =>
    rcases hres : (pyGetAttr env m (some nm) s).res with _ | fo
    · simp [hres, countP_pyGetAttr, isFinEv]
    · by_cases hc : env.callable fo.obj <;>
        simp [hres, hc, List.countP_append, List.countP_cons, isFinEv,
          countP_pyGetAttr, countP_pyCall, countP_py_XDECREF]

theorem countDecrefNull_chkUninit (env : PyEnv) (m : Option PyRef) (ufn : Option String)
    (s : PyIState) : countDecrefNull (check_and_call_uninit env m ufn s).tr = 0 := by
  unfold check_and_call_uninit countDecrefNull
  cases ufn with
  | none => simp
  | some nm =>
    rcases hres : (pyGetAttr env m (some nm) s).res with _ | fo
    · simp [hres, countP_pyGetAttr, isDecrefNullEv]
    · by_cases hc : env.callable fo.obj <;>
        simp [hres, hc, List.countP_append, List.countP_cons, isDecrefNullEv,
          countP_pyGetAttr, countP_pyCall, countP_py_XDECREF]

theorem countCallsWith_chkInit_ne (env : PyEnv) (m : Option PyRef) (ifn a : Option String)
    (s : PyIState) (a2 : List PyVal) (h : a2.length ≠ 1) :
    countCallsWith (check_and_call_init env m ifn a s).tr a2 = 0 := by
  have hne : ¬([PyVal.str a] = a2) := fun he => h (by rw [← he]; rfl)
  unfold check_and_call_init countCallsWith
  cases ifn with
  | none => simp
  | some nm =>
    rcases hres : (pyGetAttr env m (some nm) s).res with _ | fo
    · simp [hres, countP_pyGetAttr, isCallWith]
    · by_cases hc : env.callable fo.obj <;>
        simp [hres, hc, List.countP_append, List.countP_cons, isCallWith,
          countP_pyGetAttr, countP_ccw_pyCall_ne _ _ _ _ _ hne, countP_py_XDECREF]

theorem countCallsWith_chkUninit_ne (env : PyEnv) (m : Option PyRef) (ufn : Option String)
    (s : PyIState) (a2 : List PyVal) (h : a2 ≠ []) :
    countCallsWith (check_and_call_uninit env m ufn s).tr a2 = 0 := by
  have hne : ¬(([] : List PyVal) = a2) := fun he => h he.symm
  unfold check_and_call_uninit countCallsWith
  cases ufn with
  | none => simp
  | some nm =>
    rcases hres : (pyGetAttr env m (some nm) s).res with _ | fo
    · simp [hres, countP_pyGetAttr, isCallWith]
    · by_cases hc : env.callable fo.obj <;>
        simp [hres, hc, List.countP_append, List.countP_cons, isCallWith,
          countP_pyGetAttr, countP_ccw_pyCall_ne _ _ _ _ _ hne, countP_py_XDECREF]

theorem chkInit_resolved (env : PyEnv) (r : PyRef) (iname : String) (iargs : Option String)
    (s : PyIState) (io : ℕ) (ha : env.attrObj r.obj iname = some io)
    (hc : env.callable io = true) :
    check_and_call_init env (some r) (some iname) iargs s =
      ⟨0, (pyCall env (some ⟨s.nextTok, io⟩) [.str iargs] ⟨s.nextTok + 2, s.errSet⟩).st,
        [.evGetAttr (some r.tok) (some iname) (some s.nextTok),
         .evCallableCheck s.nextTok true, .evNewTuple 1 (s.nextTok + 1), .evDecodeFS iargs]
        ++ (pyCall env (some ⟨s.nextTok, io⟩) [.str iargs] ⟨s.nextTok + 2, s.errSet⟩).tr
        ++ ([.evDecref (s.nextTok + 1)]
          ++ (py_XDECREF (pyCall env (some ⟨s.nextTok, io⟩) [.str iargs]
              ⟨s.nextTok + 2, s.errSet⟩).res ++ [.evDecref s.nextTok]))⟩ := by
  unfold check_and_call_init
  rw [pyGetAttr_eq_some env (some r) (some iname) s io (by simp [attrLookup, ha])]
  simp [hc]

theorem chkUninit_resolved (env : PyEnv) (r : PyRef) (uname : String) (s : PyIState) (uo : ℕ)
    (ha : env.attrObj r.obj uname = some uo) (hc : env.callable uo = true) :
    check_and_call_uninit env (some r) (some uname) s =
      ⟨0, (pyCall env (some ⟨s.nextTok, uo⟩) [] ⟨s.nextTok + 2, s.errSet⟩).st,
        [.evGetAttr (some r.tok) (some uname) (some s.nextTok),
         .evCallableCheck s.nextTok true, .evNewTuple 0 (s.nextTok + 1)]
        ++ (pyCall env (some ⟨s.nextTok, uo⟩) [] ⟨s.nextTok + 2, s.errSet⟩).tr
        ++ ([.evDecref (s.nextTok + 1)]
          ++ (py_XDECREF (pyCall env (some ⟨s.nextTok, uo⟩) []
              ⟨s.nextTok + 2, s.errSet⟩).res ++ [.evDecref s.nextTok]))⟩ := by
  unfold check_and_call_uninit
  rw [pyGetAttr_eq_some env (some r) (some uname) s uo (by simp [attrLookup, ha])]
  simp [hc]

theorem chkInit_ret_zero (env : PyEnv) (cfg : PythonContext) (mo : ℕ) (r : PyRef)
    (iargs : Option String) (s : PyIState) (hro : r.obj = mo) (hio : initOk env mo cfg) :
    (check_and_call_init env (some r) cfg.init_function iargs s).ret = 0 := by
  cases hif : cfg.init_function with
  | none => rfl
  | some iname =>
    obtain ⟨io, ha, hc⟩ := hio iname hif
    rw [chkInit_resolved env r iname iargs s io (by rw [hro]; exact ha) hc]

theorem countCallsWith_chkInit_eq (env : PyEnv) (r : PyRef) (iname : String)
    (iargs : Option String) (s : PyIState) (io : ℕ)
    (ha : env.attrObj r.obj iname = some io) (hc : env.callable io = true) :
    countCallsWith (check_and_call_init env (some r) (some iname) iargs s).tr
      [PyVal.str iargs] = 1 := by
  rw [chkInit_resolved env r iname iargs s io ha hc]
  unfold countCallsWith
  simp only [List.countP_append, List.countP_cons]
  rw [countP_ccw_pyCall_eq]
  rw [countP_py_XDECREF _ _ (by intro a; rfl)]
  simp [isCallWith]

theorem countCalls_chkInit_eq (env : PyEnv) (r : PyRef) (iname : String)
    (iargs : Option String) (s : PyIState) (io : ℕ)
    (ha : env.attrObj r.obj iname = some io) (hc : env.callable io = true) :
    countCalls (check_and_call_init env (some r) (some iname) iargs s).tr = 1 := by
  rw [chkInit_resolved env r iname iargs s io ha hc]
  unfold countCalls
  simp only [List.countP_append, List.countP_cons]
  rw [countP_cc_pyCall_some]
  rw [countP_py_XDECREF _ _ (by intro a; rfl)]
  simp [isCallEv]

theorem countCallsWith_chkUninit_eq (env : PyEnv) (r : PyRef) (uname : String)
    (s : PyIState) (uo : ℕ) (ha : env.attrObj r.obj uname = some uo)
    (hc : env.callable uo = true) :
    countCallsWith (check_and_call_uninit env (some r) (some uname) s).tr [] = 1 := by
  rw [chkUninit_resolved env r uname s uo ha hc]
  unfold countCallsWith
  simp only [List.countP_append, List.countP_cons]
  rw [countP_ccw_pyCall_eq]
  rw [countP_py_XDECREF _ _ (by intro a; rfl)]
  simp [isCallWith]

theorem countDecref_chkUninit_fresh (env : PyEnv) (m : Option PyRef) (ufn : Option String)
    (s : PyIState) (tok : ℕ) (h : tok < s.nextTok) :
    countDecref (check_and_call_uninit env m ufn s).tr tok = 0 := by
  unfold check_and_call_uninit countDecref
  cases ufn with
  | none => simp
  | some nm =>
    rcases hres : (pyGetAttr env m (some nm) s).res with _ | fo
    · simp [hres, countP_pyGetAttr, isDecrefOf]
    · have hfo : fo.tok = s.nextTok ∧
          (pyGetAttr env m (some nm) s).st = ⟨s.nextTok + 1, s.errSet⟩ := by
        rcases hl : attrLookup env m (some nm) with _ | o
        · rw [pyGetAttr_eq_none env m (some nm) s hl] at hres; cases hres
        · rw [pyGetAttr_eq_some env m (some nm) s o hl] at hres ⊢
          cases hres; exact ⟨rfl, rfl⟩
      by_cases hc : env.callable fo.obj
      · rcases hr : env.callRes fo.obj [] with _ | o <;>
          simp [hres, hc, hfo.1, hfo.2, List.countP_append, List.countP_cons, isDecrefOf,
            countP_pyGetAttr, py_XDECREF, pyCall, hr] <;> omega
      · simp [hres, hc, hfo.1, List.countP_append, List.countP_cons, isDecrefOf,
          countP_pyGetAttr]
        omega

/-! ### Counter homomorphisms over append -/

theorem countForwards_append (t1 t2 : List PyEvent) :
    countForwards (t1 ++ t2) = countForwards t1 + countForwards t2 :=
  List.countP_append _ _ _

theorem countFinalize_append (t1 t2 : List PyEvent) :
    countFinalize (t1 ++ t2) = countFinalize t1 + countFinalize t2 :=
  List.countP_append _ _ _

theorem countCallsWith_append (t1 t2 : List PyEvent) (a2 : List PyVal) :
    countCallsWith (t1 ++ t2) a2 = countCallsWith t1 a2 + countCallsWith t2 a2 :=
  List.countP_append _ _ _

theorem countCalls_append (t1 t2 : List PyEvent) :
    countCalls (t1 ++ t2) = countCalls t1 + countCalls t2 :=
  List.countP_append _ _ _

theorem countDecref_append (t1 t2 : List PyEvent) (tok : ℕ) :
    countDecref (t1 ++ t2) tok = countDecref t1 tok + countDecref t2 tok :=
  List.countP_append _ _ _

theorem countDecrefNull_append (t1 t2 : List PyEvent) :
    countDecrefNull (t1 ++ t2) = countDecrefNull t1 + countDecrefNull t2 :=
  List.countP_append _ _ _

/-! ### `init` lemmas -/

theorem countP_init (env : PyEnv) (cfg : PythonContext) (s : PyIState) (p : PyEvent → Bool)
    (hpy : p .evInitPy = false) (hdec : ∀ a, p (.evDecodeFS a) = false)
    (himp : ∀ a b, p (.evImport a b) = false) (hdc : ∀ a, p (.evDecref a) = false)
    (hget : ∀ a b c, p (.evGetAttr a b c) = false)
    (hcc : ∀ a b, p (.evCallableCheck a b) = false) (hlog : ∀ m, p (.evLog m) = false)
    (hchk : ∀ m ifn a st, (check_and_call_init env m ifn a st).tr.countP p = 0) :
    (init env cfg s).tr.countP p = 0 := by
  unfold init
  rcases hres : (pyImport env cfg.module ⟨s.nextTok + 1, s.errSet⟩).res with _ | mr
  · simp [hres, List.countP_append, List.countP_cons, hpy, hdec, hdc, hlog, countP_pyImport,
      himp]
  · simp only [hres]
    rcases hga : (pyGetAttr env (some mr) cfg.filter_function
        (pyImport env cfg.module ⟨s.nextTok + 1, s.errSet⟩).st).res with _ | fo
    · simp [hga, List.countP_append, List.countP_cons, hpy, hdec, hdc, hlog,
        countP_pyImport, himp, countP_pyGetAttr, hget]
    · by_cases hc : env.callable fo.obj
      · by_cases hret : (check_and_call_init env (some mr) cfg.init_function cfg.init_args
            (pyGetAttr env (some mr) cfg.filter_function
              (pyImport env cfg.module ⟨s.nextTok + 1, s.errSet⟩).st).st).ret < 0
        all_goals simp [hga, hc, hret, List.countP_append, List.countP_cons, hpy, hdec, hdc,
          hlog, hcc, countP_pyImport, himp, countP_pyGetAttr, hget, hchk]
      · simp [hga, hc, List.countP_append, List.countP_cons, hpy, hdec, hdc, hlog, hcc,
          countP_pyImport, himp, countP_pyGetAttr, hget]

theorem countForwards_init (env : PyEnv) (cfg : PythonContext) (s : PyIState) :
    countForwards (init env cfg s).tr = 0 :=
  countP_init env cfg s isForwardEv rfl (fun _ => rfl) (fun _ _ => rfl) (fun _ => rfl)
    (fun _ _ _ => rfl) (fun _ _ => rfl) (fun _ => rfl)
    (fun m ifn a st => countForwards_chkInit env m ifn a st)

theorem countFinalize_init (env : PyEnv) (cfg : PythonContext) (s : PyIState) :
    countFinalize (init env cfg s).tr = 0 :=
  countP_init env cfg s isFinEv rfl (fun _ => rfl) (fun _ _ => rfl) (fun _ => rfl)
    (fun _ _ _ => rfl) (fun _ _ => rfl) (fun _ => rfl)
    (fun m ifn a st => countFinalize_chkInit env m ifn a st)

theorem countCallsWith_init_ne (env : PyEnv) (cfg : PythonContext) (s : PyIState)
    (a2 : List PyVal) (h : a2.length ≠ 1) : countCallsWith (init env cfg s).tr a2 = 0 :=
  countP_init env cfg s (isCallWith a2) rfl (fun _ => rfl) (fun _ _ => rfl) (fun _ => rfl)
    (fun _ _ _ => rfl) (fun _ _ => rfl) (fun _ => rfl)
    (fun m ifn a st => countCallsWith_chkInit_ne env m ifn a st a2 h)

theorem init_success_out (env : PyEnv) (cfg : PythonContext) (s : PyIState) (mname : String)
    (mo : ℕ) (fname : String) (fo : ℕ) (hm : cfg.module = some mname)
    (him : env.importObj mname = some mo) (hff : cfg.filter_function = some fname)
    (hfa : env.attrObj mo fname = some fo) (hfc : env.callable fo = true)
    (hio : initOk env mo cfg) :
    init env cfg s = ⟨0, ⟨some ⟨s.nextTok + 1, mo⟩, some ⟨s.nextTok + 2, fo⟩⟩,
      (check_and_call_init env (some ⟨s.nextTok + 1, mo⟩) cfg.init_function cfg.init_args
        ⟨s.nextTok + 3, s.errSet⟩).st,
      [.evInitPy, .evDecodeFS cfg.module, .evImport cfg.module (some (s.nextTok + 1)),
       .evDecref s.nextTok,
       .evGetAttr (some (s.nextTok + 1)) cfg.filter_function (some (s.nextTok + 2)),
       .evCallableCheck (s.nextTok + 2) true]
      ++ (check_and_call_init env (some ⟨s.nextTok + 1, mo⟩) cfg.init_function cfg.init_args
        ⟨s.nextTok + 3, s.errSet⟩).tr⟩ := by
  have hret : ∀ st, (check_and_call_init env (some ⟨s.nextTok + 1, mo⟩) cfg.init_function
      cfg.init_args st).ret = 0 :=
    fun st => chkInit_ret_zero env cfg mo ⟨s.nextTok + 1, mo⟩ cfg.init_args st rfl hio
  unfold init
  rw [hm, hff]
  simp [pyImport, him, pyGetAttr, attrLookup, hfa, hfc, hret, List.append_assoc]

theorem attrLookup_some (env : PyEnv) (r : PyRef) (n : Option String) :
    attrLookup env (some r) n = n.bind (env.attrObj r.obj) := by
  cases n <;> rfl

theorem init_fail_out (env : PyEnv) (cfg : PythonContext) (s : PyIState)
    (h : activationBroken env cfg) :
    (init env cfg s).ret = AVERROR_EINVAL ∧ countCalls (init env cfg s).tr = 0 := by
  unfold init
  rcases h with h1 | ⟨mo, h1, h2⟩ | ⟨mo, fo, h1, h2, h3⟩
  · simp [pyImport_eq_none env cfg.module ⟨s.nextTok + 1, s.errSet⟩ h1, countCalls,
      List.countP_append, List.countP_cons, isCallEv]
  · simp [pyImport_eq_some env cfg.module ⟨s.nextTok + 1, s.errSet⟩ mo h1,
      pyGetAttr_eq_none, attrLookup_some, h2, countCalls,
      List.countP_append, List.countP_cons, isCallEv]
  · simp [pyImport_eq_some env cfg.module ⟨s.nextTok + 1, s.errSet⟩ mo h1,
      pyGetAttr_eq_some, attrLookup_some, h2, h3, countCalls,
      List.countP_append, List.countP_cons, isCallEv]

/-! ### `uninit` lemmas -/

theorem countP_uninit (env : PyEnv) (cfg : PythonContext) (b : PyBound) (s : PyIState)
    (p : PyEvent → Bool) (hlog : ∀ m, p (.evLog m) = false)
    (hdc : ∀ a, p (.evDecref a) = false) (hdcn : p .evDecrefNull = false)
    (hchk : ∀ m ufn st, (check_and_call_uninit env m ufn st).tr.countP p = 0) :
    (uninit env cfg b s).tr.countP p = (if p .evFinalize then 1 else 0) := by
  unfold uninit
  by_cases hret : (check_and_call_uninit env b.pModule cfg.uninit_function s).ret < 0 <;>
    cases hbf : b.pFunc <;> cases hbm : b.pModule <;>
      simp [hret, List.countP_append, List.countP_cons, hlog, hchk, hdc, hdcn, py_DECREF]

theorem countForwards_uninit (env : PyEnv) (cfg : PythonContext) (b : PyBound) (s : PyIState) :
    countForwards (uninit env cfg b s).tr = 0 := by
  have h := countP_uninit env cfg b s isForwardEv (fun _ => rfl) (fun _ => rfl) rfl
    (fun m ufn st => countForwards_chkUninit env m ufn st)
  simpa using h

theorem countFinalize_uninit (env : PyEnv) (cfg : PythonContext) (b : PyBound) (s : PyIState) :
    countFinalize (uninit env cfg b s).tr = 1 := by
  have h := countP_uninit env cfg b s isFinEv (fun _ => rfl) (fun _ => rfl) rfl
    (fun m ufn st => countFinalize_chkUninit env m ufn st)
  simpa [isFinEv] using h

theorem countCallsWith_uninit_ne (env : PyEnv) (cfg : PythonContext) (b : PyBound)
    (s : PyIState) (a2 : List PyVal) (h : a2 ≠ []) :
    countCallsWith (uninit env cfg b s).tr a2 = 0 := by
  have hu := countP_uninit env cfg b s (isCallWith a2) (fun _ => rfl) (fun _ => rfl) rfl
    (fun m ufn st => countCallsWith_chkUninit_ne env m ufn st a2 h)
  unfold countCallsWith
  rw [hu]
  rfl

/-! ### `processFrames` and `runStage` lemmas -/

theorem countP_processFrames (env : PyEnv) (tb : ℚ) (frames : List Frame) (p : PyEvent → Bool)
    (hf : ∀ b fr s, (filter_frame env tb b fr s).tr.countP p = 0) (b : PyBound)
    (s : PyIState) : (processFrames env tb b frames s).2.2.countP p = 0 := by
  induction frames generalizing b s with
  | nil => rfl
  | cons fr rest ih => unfold processFrames; simp [List.countP_append, hf, ih]

theorem countForwards_processFrames (env : PyEnv) (tb : ℚ) (frames : List Frame) (b : PyBound)
    (s : PyIState) : countForwards (processFrames env tb b frames s).2.2 = frames.length := by
  induction frames generalizing b s with
  | nil => rfl
  | cons fr rest ih =>
    unfold processFrames
    simp only [List.length_cons]
    rw [countForwards_append, countForwards_filter_frame, ih]
    omega

theorem countFinalize_processFrames (env : PyEnv) (tb : ℚ) (frames : List Frame) (b : PyBound)
    (s : PyIState) : countFinalize (processFrames env tb b frames s).2.2 = 0 :=
  countP_processFrames env tb frames isFinEv
    (fun b2 fr s2 => countFinalize_filter_frame env tb b2 fr s2) b s

theorem countCallsWith_processFrames_ne (env : PyEnv) (tb : ℚ) (frames : List Frame)
    (a2 : List PyVal) (h : a2.length ≠ 4) (b : PyBound) (s : PyIState) :
    countCallsWith (processFrames env tb b frames s).2.2 a2 = 0 :=
  countP_processFrames env tb frames (isCallWith a2)
    (fun b2 fr s2 => countCallsWith_filter_frame env tb b2 fr s2 a2 h) b s

theorem processFrames_bound (env : PyEnv) (tb : ℚ) (frames : List Frame) (b : PyBound)
    (s : PyIState) : (processFrames env tb b frames s).1 = b := by
  induction frames generalizing b s with
  | nil => rfl
  | cons fr rest ih => unfold processFrames; simpa [filter_frame_bound] using ih _ _

theorem runStage_success (env : PyEnv) (cfg : PythonContext) (tb : ℚ) (frames : List Frame)
    (h : (init env cfg st0).ret = 0) :
    runStage env cfg tb frames = ⟨0,
      (init env cfg st0).tr
      ++ (processFrames env tb (init env cfg st0).bound frames (init env cfg st0).st).2.2
      ++ (uninit env cfg
            (processFrames env tb (init env cfg st0).bound frames (init env cfg st0).st).1
            (processFrames env tb (init env cfg st0).bound frames
              (init env cfg st0).st).2.1).tr⟩ := by
  unfold runStage
  simp [h]

theorem runStage_fail (env : PyEnv) (cfg : PythonContext) (tb : ℚ) (frames : List Frame)
    (h : ¬((init env cfg st0).ret = 0)) :
    runStage env cfg tb frames = ⟨(init env cfg st0).ret, (init env cfg st0).tr⟩ := by
  unfold runStage
  simp [h]

theorem runStage_success_tr (env : PyEnv) (cfg : PythonContext) (tb : ℚ) (frames : List Frame)
    (h : (init env cfg st0).ret = 0) :
    (runStage env cfg tb frames).tr =
      (init env cfg st0).tr
      ++ (processFrames env tb (init env cfg st0).bound frames (init env cfg st0).st).2.2
      ++ (uninit env cfg
            (processFrames env tb (init env cfg st0).bound frames (init env cfg st0).st).1
            (processFrames env tb (init env cfg st0).bound frames
              (init env cfg st0).st).2.1).tr := by
  rw [runStage_success env cfg tb frames h]

theorem uninit_tr (env : PyEnv) (cfg : PythonContext) (b : PyBound) (s : PyIState) :
    (uninit env cfg b s).tr =
      (check_and_call_uninit env b.pModule cfg.uninit_function s).tr
      ++ (if (check_and_call_uninit env b.pModule cfg.uninit_function s).ret < 0
            then [PyEvent.evLog "could not call uninit function"] else ([] : List PyEvent))
      ++ py_DECREF b.pFunc ++ py_DECREF b.pModule ++ [.evFinalize] := by
  simp only [uninit]

theorem countCallsWith_init_eq (env : PyEnv) (cfg : PythonContext) (s : PyIState)
    (mname : String) (mo : ℕ) (fname : String) (fo : ℕ) (iname : String) (io : ℕ)
    (hm : cfg.module = some mname) (him : env.importObj mname = some mo)
    (hff : cfg.filter_function = some fname) (hfa : env.attrObj mo fname = some fo)
    (hfc : env.callable fo = true) (hif : cfg.init_function = some iname)
    (hia : env.attrObj mo iname = some io) (hic : env.callable io = true) :
    countCallsWith (init env cfg s).tr [PyVal.str cfg.init_args] = 1 := by
  have hio : initOk env mo cfg := by
    intro iname2 h2; rw [hif] at h2; cases h2; exact ⟨io, hia, hic⟩
  rw [init_success_out env cfg s mname mo fname fo hm him hff hfa hfc hio, hif]
  rw [countCallsWith_append]
  rw [countCallsWith_chkInit_eq env ⟨s.nextTok + 1, mo⟩ iname cfg.init_args
    ⟨s.nextTok + 3, s.errSet⟩ io hia hic]
  simp [countCallsWith, List.countP_cons, isCallWith]

theorem countCalls_init_eq (env : PyEnv) (cfg : PythonContext) (s : PyIState)
    (mname : String) (mo : ℕ) (fname : String) (fo : ℕ) (iname : String) (io : ℕ)
    (hm : cfg.module = some mname) (him : env.importObj mname = some mo)
    (hff : cfg.filter_function = some fname) (hfa : env.attrObj mo fname = some fo)
    (hfc : env.callable fo = true) (hif : cfg.init_function = some iname)
    (hia : env.attrObj mo iname = some io) (hic : env.callable io = true) :
    countCalls (init env cfg s).tr = 1 := by
  have hio : initOk env mo cfg := by
    intro iname2 h2; rw [hif] at h2; cases h2; exact ⟨io, hia, hic⟩
  rw [init_success_out env cfg s mname mo fname fo hm him hff hfa hfc hio, hif]
  rw [countCalls_append]
  rw [countCalls_chkInit_eq env ⟨s.nextTok + 1, mo⟩ iname cfg.init_args
    ⟨s.nextTok + 3, s.errSet⟩ io hia hic]
  simp [countCalls, List.countP_cons, isCallEv]

/-! ### The claims -/

/-- C1: for every frame processed in Steady state, `filter_frame` invokes the
bound filter callable with exactly one 4-element positional argument tuple
whose elements are, in this order: the timestamp as the frame's pts times
the input link's time base, the frame's width, the frame's height, and the
address of the frame's first data plane. -/
theorem C1_steady_call_contract (env : PyEnv) (tb : ℚ) (b : PyBound) (f : PyRef) (fr : Frame)
    (s : PyIState) (hf : b.pFunc = some f) :
    callsOf (filter_frame env tb b fr s).tr =
      [(f.tok, [PyVal.float (fr.pts * tb), PyVal.int fr.width, PyVal.int fr.height,
        PyVal.int fr.dataAddr])] := by
  show callsOf (filter_frame env tb b fr s).tr = [(f.tok, frameArgs tb fr)]
  unfold filter_frame callsOf
  rcases hr : env.callRes f.obj (frameArgs tb fr) with _ | o <;>
    simp [hf, pyCall, hr, py_XDECREF]

/-- C1 witness: the contract evaluated on a concrete bound callable and
frame. -/
theorem C1_steady_call_contract_witness :
    (⟨some ⟨1, 10⟩, some ⟨2, 20⟩⟩ : PyBound).pFunc = some ⟨2, 20⟩ ∧
    callsOf (filter_frame envA tbA ⟨some ⟨1, 10⟩, some ⟨2, 20⟩⟩ frA ⟨3, false⟩).tr =
      [(2, [PyVal.float (frA.pts * tbA), PyVal.int frA.width, PyVal.int frA.height,
        PyVal.int frA.dataAddr])] :=
  ⟨rfl, C1_steady_call_contract envA tbA ⟨some ⟨1, 10⟩, some ⟨2, 20⟩⟩ ⟨2, 20⟩ frA ⟨3, false⟩ rfl⟩

/-- C2: for every frame, `filter_frame` forwards the original incoming frame
object downstream (as the last action, after the handler invocation), and
the handler's return value is discarded: the returned code is exactly
`ff_filter_frame`'s result on the original frame and the stored context is
unchanged, for every possible handler outcome. -/
theorem C2_forward_original (env : PyEnv) (tb : ℚ) (b : PyBound) (fr : Frame) (s : PyIState) :
    (filter_frame env tb b fr s).ret = env.ffResult fr ∧
    (filter_frame env tb b fr s).bound = b ∧
    ∃ t, (filter_frame env tb b fr s).tr = t ++ [.evForward fr] :=
  ⟨filter_frame_ret env tb b fr s, filter_frame_bound env tb b fr s,
    filter_frame_forward_last env tb b fr s⟩

/-- C3 counterexample: at a concrete failing handler invocation the
interpreter-side error state is set after `filter_frame`, not cleared as the
claim asserts — nothing in `filter_frame` clears the pending exception. -/
theorem C3_counterexample :
    envErr.callRes 20 (frameArgs tbA frA) = none ∧
    (filter_frame envErr tbA ⟨some ⟨1, 10⟩, some ⟨2, 20⟩⟩ frA ⟨3, false⟩).st.errSet = true := by
  decide

/-- C3 (amended): for every frame whose handler invocation fails,
`filter_frame` still forwards the current frame downstream and returns
`ff_filter_frame`'s code (no pipeline-level error from the scripting
failure), the interpreter-side error state is left set (it is NOT cleared),
and a subsequent frame is still processed (its handler is invoked and it is
forwarded). -/
theorem C3_handler_failure_amended (env : PyEnv) (tb : ℚ) (b : PyBound) (f : PyRef)
    (fr fr2 : Frame) (s : PyIState) (hf : b.pFunc = some f)
    (hfail : env.callRes f.obj (frameArgs tb fr) = none) :
    (filter_frame env tb b fr s).ret = env.ffResult fr ∧
    (∃ t, (filter_frame env tb b fr s).tr = t ++ [.evForward fr]) ∧
    (filter_frame env tb b fr s).st.errSet = true ∧
    countCalls (filter_frame env tb (filter_frame env tb b fr s).bound fr2
      (filter_frame env tb b fr s).st).tr = 1 ∧
    ∃ t2, (filter_frame env tb (filter_frame env tb b fr s).bound fr2
      (filter_frame env tb b fr s).st).tr = t2 ++ [.evForward fr2] := by
  refine ⟨filter_frame_ret env tb b fr s, filter_frame_forward_last env tb b fr s, ?_, ?_,
    filter_frame_forward_last env tb _ fr2 _⟩
  · unfold filter_frame
    simp [hf, pyCall, hfail]
  · rw [filter_frame_bound]
    exact countCalls_filter_frame_some env tb b f hf fr2 _

/-- C3 witness: the amended behaviour at a concrete failing invocation. -/
theorem C3_handler_failure_amended_witness :
    envErr.callRes (⟨2, 20⟩ : PyRef).obj (frameArgs tbA frA) = none ∧
    (filter_frame envErr tbA ⟨some ⟨1, 10⟩, some ⟨2, 20⟩⟩ frA ⟨3, false⟩).ret =
      envErr.ffResult frA ∧
    countCalls (filter_frame envErr tbA
      (filter_frame envErr tbA ⟨some ⟨1, 10⟩, some ⟨2, 20⟩⟩ frA ⟨3, false⟩).bound frB
      (filter_frame envErr tbA ⟨some ⟨1, 10⟩, some ⟨2, 20⟩⟩ frA ⟨3, false⟩).st).tr = 1 := by
  have h := C3_handler_failure_amended envErr tbA ⟨some ⟨1, 10⟩, some ⟨2, 20⟩⟩ ⟨2, 20⟩ frA frB
    ⟨3, false⟩ rfl (by decide)
  exact ⟨by decide, h.1, h.2.2.2.1⟩

/-- C4 counterexample: a concrete configuration whose initializer resolves
to a callable but whose initializer call fails; `init` nevertheless returns
0 (not `AVERROR(EINVAL)`) and the stage reaches Steady (a frame is
forwarded), contradicting the claim that activation fails. -/
theorem C4_counterexample :
    envC4.attrObj 10 "setup" = some 30 ∧ envC4.callable 30 = true ∧
    envC4.callRes 30 [PyVal.str (some "gain=2")] = none ∧
    (init envC4 cfgA st0).ret = 0 ∧
    countForwards (runStage envC4 cfgA tbA [frA]).tr = 1 := by
  decide

/-- C4 (amended): a failing initializer call does not abort activation:
`check_and_call_init` ignores the call's outcome, `init` returns 0 and the
stage reaches Steady, processing every frame; only resolution failure of the
initializer (missing or non-callable name) is an activation error. -/
theorem C4_init_call_failure_amended (env : PyEnv) (cfg : PythonContext) (tb : ℚ)
    (frames : List Frame) (s : PyIState) (mname : String) (mo : ℕ) (fname : String) (fo : ℕ)
    (iname : String) (io : ℕ) (hm : cfg.module = some mname)
    (him : env.importObj mname = some mo) (hff : cfg.filter_function = some fname)
    (hfa : env.attrObj mo fname = some fo) (hfc : env.callable fo = true)
    (hif : cfg.init_function = some iname) (hia : env.attrObj mo iname = some io)
    (hic : env.callable io = true)
    (hfail : env.callRes io [PyVal.str cfg.init_args] = none) :
    (init env cfg s).ret = 0 ∧
    (runStage env cfg tb frames).ret = 0 ∧
    countForwards (runStage env cfg tb frames).tr = frames.length := by
  have hio : initOk env mo cfg := by
    intro iname2 h2; rw [hif] at h2; cases h2; exact ⟨io, hia, hic⟩
  have hi := init_success_out env cfg s mname mo fname fo hm him hff hfa hfc hio
  have hi0 := init_success_out env cfg st0 mname mo fname fo hm him hff hfa hfc hio
  have hr0 : (init env cfg st0).ret = 0 := by rw [hi0]
  refine ⟨by rw [hi], ?_, ?_⟩
  · rw [runStage_success env cfg tb frames hr0]
  · rw [runStage_success env cfg tb frames hr0]
    simp only [countForwards_append, countForwards_init, countForwards_processFrames,
      countForwards_uninit]
    omega

/-- C4 witness: the amended behaviour at the concrete failing-initializer
configuration. -/
theorem C4_init_call_failure_amended_witness :
    envC4.callRes 30 [PyVal.str cfgA.init_args] = none ∧
    (init envC4 cfgA st0).ret = 0 ∧ (runStage envC4 cfgA tbA [frA]).ret = 0 ∧
    countForwards (runStage envC4 cfgA tbA [frA]).tr = 1 := by
  have h := C4_init_call_failure_amended envC4 cfgA tbA [frA] st0 "demo" 10 "process" 20
    "setup" 30 rfl (by decide) rfl (by decide) (by decide) rfl (by decide) (by decide)
    (by decide)
  exact ⟨by decide, h.1, h.2.1, h.2.2⟩

/-- C5 counterexample: after a failed activation (filter attribute missing,
`pFunc` = NULL), `uninit` performs a release of a NULL reference
(`Py_DECREF(py_context->pFunc)` has no NULL guard), contradicting the claim
that null references are skipped and never released. -/
theorem C5_counterexample :
    (init envNoAttr cfgC st0).ret = AVERROR_EINVAL ∧
    (init envNoAttr cfgC st0).bound.pFunc = none ∧
    0 < countDecrefNull (uninit envNoAttr cfgC (init envNoAttr cfgC st0).bound
      (init envNoAttr cfgC st0).st).tr := by
  decide

/-- C5 (amended): from a state in which both references were successfully
resolved (non-null), teardown runs to completion (its last event is the
runtime shutdown) and releases the filter-callable and module references
exactly once each with no null release, even when the finalizer call fails;
a reference that is null is however NOT skipped: `uninit` releases
`pFunc`/`pModule` unconditionally, performing a null release. -/
theorem C5_teardown_amended (env : PyEnv) (cfg : PythonContext) (b : PyBound) (s : PyIState)
    (fref mref : PyRef) (hf : b.pFunc = some fref) (hm : b.pModule = some mref)
    (hft : fref.tok < s.nextTok) (hmt : mref.tok < s.nextTok) (hne : fref.tok ≠ mref.tok) :
    countDecref (uninit env cfg b s).tr fref.tok = 1 ∧
    countDecref (uninit env cfg b s).tr mref.tok = 1 ∧
    countDecrefNull (uninit env cfg b s).tr = 0 ∧
    (∃ t, (uninit env cfg b s).tr = t ++ [.evFinalize]) ∧
    (∀ b2 s2, b2.pFunc = none → 0 < countDecrefNull (uninit env cfg b2 s2).tr) := by
  refine ⟨?_, ?_, ?_, ?_, ?_⟩
  · rw [uninit_tr, hf, hm]
    simp only [countDecref_append,
      countDecref_chkUninit_fresh env (some mref) cfg.uninit_function s fref.tok hft,
      py_DECREF]
    by_cases hret : (check_and_call_uninit env (some mref) cfg.uninit_function s).ret < 0 <;>
      simp [hret, countDecref, List.countP_cons, isDecrefOf, Ne.symm hne]
  · rw [uninit_tr, hf, hm]
    simp only [countDecref_append,
      countDecref_chkUninit_fresh env (some mref) cfg.uninit_function s mref.tok hmt,
      py_DECREF]
    by_cases hret : (check_and_call_uninit env (some mref) cfg.uninit_function s).ret < 0 <;>
      simp [hret, countDecref, List.countP_cons, isDecrefOf, hne]
  · rw [uninit_tr, hf, hm]
    simp only [countDecrefNull_append,
      countDecrefNull_chkUninit env (some mref) cfg.uninit_function s, py_DECREF]
    by_cases hret : (check_and_call_uninit env (some mref) cfg.uninit_function s).ret < 0 <;>
      simp [hret, countDecrefNull, List.countP_cons, isDecrefNullEv]
  · refine ⟨(check_and_call_uninit env b.pModule cfg.uninit_function s).tr
      ++ (if (check_and_call_uninit env b.pModule cfg.uninit_function s).ret < 0
          then [PyEvent.evLog "could not call uninit function"] else ([] : List PyEvent))
      ++ py_DECREF b.pFunc ++ py_DECREF b.pModule, ?_⟩
    rw [uninit_tr]
  · intro b2 s2 h2
    have h1 : countDecrefNull [PyEvent.evDecrefNull] = 1 := rfl
    rw [uninit_tr, h2]
    simp only [countDecrefNull_append, py_DECREF, h1]
    omega

/-- C5 witness: concrete teardown from a successfully-activated state whose
finalizer call fails; both stored references are still released exactly
once, no null release occurs. -/
theorem C5_teardown_amended_witness :
    envUErr.callRes 40 [] = none ∧
    countDecref (uninit envUErr cfgB ⟨some ⟨1, 10⟩, some ⟨2, 20⟩⟩ ⟨3, false⟩).tr 2 = 1 ∧
    countDecref (uninit envUErr cfgB ⟨some ⟨1, 10⟩, some ⟨2, 20⟩⟩ ⟨3, false⟩).tr 1 = 1 ∧
    countDecrefNull (uninit envUErr cfgB ⟨some ⟨1, 10⟩, some ⟨2, 20⟩⟩ ⟨3, false⟩).tr = 0 := by
  have h := C5_teardown_amended envUErr cfgB ⟨some ⟨1, 10⟩, some ⟨2, 20⟩⟩ ⟨3, false⟩
    ⟨2, 20⟩ ⟨1, 10⟩ rfl rfl (by decide) (by decide) (by decide)
  exact ⟨by decide, h.1, h.2.1, h.2.2.1⟩

/-- C6: whenever the module cannot be imported, or `filter_function` names a
missing or a non-callable attribute, activation fails with the same
invalid-argument error `AVERROR(EINVAL)` in all three cases, and the handler
is never invoked for any frame: the whole run performs zero Python calls. -/
theorem C6_activation_failures (env : PyEnv) (cfg : PythonContext) (tb : ℚ)
    (frames : List Frame) (h : activationBroken env cfg) :
    (init env cfg st0).ret = AVERROR_EINVAL ∧
    (runStage env cfg tb frames).ret = AVERROR_EINVAL ∧
    countCalls (runStage env cfg tb frames).tr = 0 := by
  obtain ⟨h1, h2⟩ := init_fail_out env cfg st0 h
  have hne : ¬((init env cfg st0).ret = 0) := by rw [h1]; decide
  rw [runStage_fail env cfg tb frames hne]
  exact ⟨h1, h1, h2⟩

/-- C6 witness: the three failure situations instantiated concretely, each
yielding the same `AVERROR(EINVAL)` and zero Python calls. -/
theorem C6_activation_failures_witness :
    activationBroken envNoMod cfgC ∧
    (runStage envNoMod cfgC tbA [frA]).ret = AVERROR_EINVAL ∧
    countCalls (runStage envNoMod cfgC tbA [frA]).tr = 0 ∧
    activationBroken envNoAttr cfgC ∧
    (runStage envNoAttr cfgC tbA [frA]).ret = AVERROR_EINVAL ∧
    countCalls (runStage envNoAttr cfgC tbA [frA]).tr = 0 ∧
    activationBroken envNoCall cfgC ∧
    (runStage envNoCall cfgC tbA [frA]).ret = AVERROR_EINVAL ∧
    countCalls (runStage envNoCall cfgC tbA [frA]).tr = 0 := by
  have h1 : activationBroken envNoMod cfgC := Or.inl (by decide)
  have h2 : activationBroken envNoAttr cfgC := Or.inr (Or.inl ⟨10, by decide, by decide⟩)
  have h3 : activationBroken envNoCall cfgC :=
    Or.inr (Or.inr ⟨10, 20, by decide, by decide, by decide⟩)
  have g1 := C6_activation_failures envNoMod cfgC tbA [frA] h1
  have g2 := C6_activation_failures envNoAttr cfgC tbA [frA] h2
  have g3 := C6_activation_failures envNoCall cfgC tbA [frA] h3
  exact ⟨h1, g1.2.1, g1.2.2, h2, g2.2.1, g2.2.2, h3, g3.2.1, g3.2.2⟩

/-- C7: if `init_function` is unset, the initializer is never resolved or
invoked during activation (`check_and_call_init` performs no interpreter
interaction at all); if it is set (and resolves to a callable, as activation
requires), the initializer is invoked exactly once — activation performs
exactly one Python call — with a single positional string argument equal to
the configured `init_args`, and this call occurs before any frame is
forwarded. -/
theorem C7_initializer_contract (env : PyEnv) (cfg : PythonContext) (tb : ℚ)
    (frames : List Frame) (mname : String) (mo : ℕ) (fname : String) (fo : ℕ)
    (iname : String) (io : ℕ) (hm : cfg.module = some mname)
    (him : env.importObj mname = some mo) (hff : cfg.filter_function = some fname)
    (hfa : env.attrObj mo fname = some fo) (hfc : env.callable fo = true)
    (hif : cfg.init_function = some iname) (hia : env.attrObj mo iname = some io)
    (hic : env.callable io = true) :
    (∀ env2 m a s2, check_and_call_init env2 m none a s2 = ⟨0, s2, []⟩) ∧
    countCalls (init env cfg st0).tr = 1 ∧
    countCallsWith (runStage env cfg tb frames).tr [PyVal.str cfg.init_args] = 1 ∧
    ∃ k, countCallsWith ((runStage env cfg tb frames).tr.take k) [PyVal.str cfg.init_args] = 1
      ∧ countForwards ((runStage env cfg tb frames).tr.take k) = 0 := by
  have hio : initOk env mo cfg := by
    intro i2 h2; rw [hif] at h2; cases h2; exact ⟨io, hia, hic⟩
  have hr0 : (init env cfg st0).ret = 0 := by
    rw [init_success_out env cfg st0 mname mo fname fo hm him hff hfa hfc hio]
  have hccwInit := countCallsWith_init_eq env cfg st0 mname mo fname fo iname io
    hm him hff hfa hfc hif hia hic
  have hrs := runStage_success_tr env cfg tb frames hr0
  refine ⟨fun env2 m a s2 => chkInit_unset env2 m a s2,
    countCalls_init_eq env cfg st0 mname mo fname fo iname io hm him hff hfa hfc hif hia hic,
    ?_, ?_⟩
  · rw [hrs]
    rw [countCallsWith_append, countCallsWith_append, hccwInit,
      countCallsWith_processFrames_ne env tb frames _ (by simp),
      countCallsWith_uninit_ne _ _ _ _ _ (by simp)]
  · refine ⟨(init env cfg st0).tr.length, ?_, ?_⟩
    · rw [hrs]
      rw [List.append_assoc, List.take_left]
      exact hccwInit
    · rw [hrs]
      rw [List.append_assoc, List.take_left]
      exact countForwards_init env cfg st0

/-- C7 witness: the initializer contract at a concrete configuration with
`init_function = setup`, `init_args = gain=2`, one frame. -/
theorem C7_initializer_contract_witness :
    cfgA.init_function = some "setup" ∧
    countCalls (init envA cfgA st0).tr = 1 ∧
    countCallsWith (runStage envA cfgA tbA [frA]).tr [PyVal.str cfgA.init_args] = 1 := by
  have h := C7_initializer_contract envA cfgA tbA [frA] "demo" 10 "process" 20 "setup" 30
    rfl (by decide) rfl (by decide) (by decide) rfl (by decide) (by decide)
  exact ⟨rfl, h.2.1, h.2.2.1⟩

/-- C8: if `uninit_function` is unset, the finalizer is never resolved or
invoked (`check_and_call_uninit` performs no interpreter interaction at
all); if it is set and resolves to a callable, the finalizer is invoked
exactly once during deactivation, with an empty (zero-element) argument
tuple, after the last frame has been forwarded and before the interpreter
runtime is shut down (`Py_FinalizeEx`). -/
theorem C8_finalizer_contract (env : PyEnv) (cfg : PythonContext) (tb : ℚ)
    (frames : List Frame) (mname : String) (mo : ℕ) (fname : String) (fo : ℕ)
    (uname : String) (uo : ℕ) (hm : cfg.module = some mname)
    (him : env.importObj mname = some mo) (hff : cfg.filter_function = some fname)
    (hfa : env.attrObj mo fname = some fo) (hfc : env.callable fo = true)
    (hio : initOk env mo cfg) (huf : cfg.uninit_function = some uname)
    (hua : env.attrObj mo uname = some uo) (huc : env.callable uo = true) :
    (∀ env2 m s2, check_and_call_uninit env2 m none s2 = ⟨0, s2, []⟩) ∧
    countCallsWith (runStage env cfg tb frames).tr [] = 1 ∧
    ∃ u v w, (runStage env cfg tb frames).tr = u ++ v ++ w ∧
      countForwards u = frames.length ∧ countCallsWith u [] = 0 ∧ countFinalize u = 0 ∧
      countForwards v = 0 ∧ countCallsWith v [] = 1 ∧ countFinalize v = 0 ∧
      countForwards w = 0 ∧ countCallsWith w [] = 0 ∧ countFinalize w = 1 := by
  have hi0 := init_success_out env cfg st0 mname mo fname fo hm him hff hfa hfc hio
  have hr0 : (init env cfg st0).ret = 0 := by rw [hi0]
  have hrs := runStage_success_tr env cfg tb frames hr0
  have hpm : (processFrames env tb (init env cfg st0).bound frames
      (init env cfg st0).st).1.pModule = some ⟨st0.nextTok + 1, mo⟩ := by
    rw [processFrames_bound, hi0]
  have hpf : (processFrames env tb (init env cfg st0).bound frames
      (init env cfg st0).st).1.pFunc = some ⟨st0.nextTok + 2, fo⟩ := by
    rw [processFrames_bound, hi0]
  have hcu := chkUninit_resolved env ⟨st0.nextTok + 1, mo⟩ uname
    (processFrames env tb (init env cfg st0).bound frames (init env cfg st0).st).2.1 uo hua huc
  have hret0 : (check_and_call_uninit env (some ⟨st0.nextTok + 1, mo⟩) (some uname)
      (processFrames env tb (init env cfg st0).bound frames
        (init env cfg st0).st).2.1).ret = 0 := by
    rw [hcu]
  have hutr := uninit_tr env cfg
    (processFrames env tb (init env cfg st0).bound frames (init env cfg st0).st).1
    (processFrames env tb (init env cfg st0).bound frames (init env cfg st0).st).2.1
  rw [hpm, hpf, huf, hret0] at hutr
  simp only [py_DECREF] at hutr
  -- counts on the three segments
  have hUfwd : countForwards ((init env cfg st0).tr
      ++ (processFrames env tb (init env cfg st0).bound frames
        (init env cfg st0).st).2.2) = frames.length := by
    rw [countForwards_append, countForwards_init, countForwards_processFrames]
    omega
  have hUccw : countCallsWith ((init env cfg st0).tr
      ++ (processFrames env tb (init env cfg st0).bound frames
        (init env cfg st0).st).2.2) [] = 0 := by
    rw [countCallsWith_append, countCallsWith_init_ne env cfg st0 [] (by decide),
      countCallsWith_processFrames_ne env tb frames [] (by decide)]
  have hUfin : countFinalize ((init env cfg st0).tr
      ++ (processFrames env tb (init env cfg st0).bound frames
        (init env cfg st0).st).2.2) = 0 := by
    rw [countFinalize_append, countFinalize_init, countFinalize_processFrames]
  have hVccw := countCallsWith_chkUninit_eq env ⟨st0.nextTok + 1, mo⟩ uname
    (processFrames env tb (init env cfg st0).bound frames (init env cfg st0).st).2.1 uo hua huc
  have hVfwd := countForwards_chkUninit env (some ⟨st0.nextTok + 1, mo⟩) (some uname)
    (processFrames env tb (init env cfg st0).bound frames (init env cfg st0).st).2.1
  have hVfin := countFinalize_chkUninit env (some ⟨st0.nextTok + 1, mo⟩) (some uname)
    (processFrames env tb (init env cfg st0).bound frames (init env cfg st0).st).2.1
  refine ⟨fun env2 m s2 => chkUninit_unset env2 m s2, ?_, ?_⟩
  · rw [hrs, countCallsWith_append, countCallsWith_append,
      countCallsWith_init_ne env cfg st0 [] (by decide),
      countCallsWith_processFrames_ne env tb frames [] (by decide),
      hutr]
    simp only [if_neg (by omega : ¬((0 : ℤ) < 0))]
    rw [countCallsWith_append, countCallsWith_append, countCallsWith_append,
      countCallsWith_append, hVccw]
    simp [countCallsWith, List.countP_cons, isCallWith]
  · refine ⟨(init env cfg st0).tr
      ++ (processFrames env tb (init env cfg st0).bound frames (init env cfg st0).st).2.2,
      (check_and_call_uninit env (some ⟨st0.nextTok + 1, mo⟩) (some uname)
        (processFrames env tb (init env cfg st0).bound frames
          (init env cfg st0).st).2.1).tr,
      [PyEvent.evDecref (st0.nextTok + 2), PyEvent.evDecref (st0.nextTok + 1),
        PyEvent.evFinalize], ?_, hUfwd, hUccw, hUfin, hVfwd, hVccw, hVfin, ?_, ?_, ?_⟩
    · rw [hrs, hutr]
      simp only [if_neg (by omega : ¬((0 : ℤ) < 0))]
      simp [List.append_assoc]
    · simp [countForwards, List.countP_cons, isForwardEv]
    · simp [countCallsWith, List.countP_cons, isCallWith]
    · simp [countFinalize, List.countP_cons, isFinEv]

/-- C8 witness: the finalizer contract at a concrete configuration with
`uninit_function = teardown` and one frame. -/
theorem C8_finalizer_contract_witness :
    cfgB.uninit_function = some "teardown" ∧
    countCallsWith (runStage envA cfgB tbA [frA]).tr [] = 1 := by
  have h := C8_finalizer_contract envA cfgB tbA [frA] "demo" 10 "process" 20 "teardown" 40
    rfl (by decide) rfl (by decide) (by decide)
    (by intro i2 h2; simp [cfgB] at h2) rfl (by decide) (by decide)
  exact ⟨rfl, h.2.1⟩

/-- C9: once activation succeeds, the stored module and filter-callable
references are both non-null and the filter callable is callable, and no
per-frame handler invocation modifies the stored context fields for the
remainder of the run; if resolution of the filter callable fails (missing
attribute or non-callable), activation itself fails with `AVERROR(EINVAL)`
and no frame is processed (nothing is forwarded, no Python call happens). -/
theorem C9_binding_invariant (env : PyEnv) (cfg : PythonContext) (tb : ℚ)
    (frames : List Frame) (s : PyIState) (mname : String) (mo : ℕ) (fname : String)
    (hm : cfg.module = some mname) (him : env.importObj mname = some mo)
    (hff : cfg.filter_function = some fname) :
    (∀ fo, env.attrObj mo fname = some fo → env.callable fo = true → initOk env mo cfg →
      (init env cfg s).ret = 0 ∧
      (init env cfg s).bound.pModule = some ⟨s.nextTok + 1, mo⟩ ∧
      (init env cfg s).bound.pFunc = some ⟨s.nextTok + 2, fo⟩ ∧
      env.callable fo = true ∧
      (∀ b fr2 s2, (filter_frame env tb b fr2 s2).bound = b) ∧
      (processFrames env tb (init env cfg s).bound frames (init env cfg s).st).1 =
        (init env cfg s).bound) ∧
    ((env.attrObj mo fname = none ∨
      (∃ fo, env.attrObj mo fname = some fo ∧ env.callable fo = false)) →
      (init env cfg s).ret = AVERROR_EINVAL ∧
      countForwards (runStage env cfg tb frames).tr = 0 ∧
      countCalls (runStage env cfg tb frames).tr = 0) := by
  constructor
  · intro fo hfa hfc hio
    have hi := init_success_out env cfg s mname mo fname fo hm him hff hfa hfc hio
    refine ⟨by rw [hi], by rw [hi], by rw [hi], hfc,
      fun b fr2 s2 => filter_frame_bound env tb b fr2 s2,
      processFrames_bound env tb frames (init env cfg s).bound (init env cfg s).st⟩
  · intro hfail
    have hbroken : activationBroken env cfg := by
      have hmod : cfg.module.bind env.importObj = some mo := by rw [hm]; simpa using him
      rcases hfail with hn | ⟨fo, hsome, hnc⟩
      · exact Or.inr (Or.inl ⟨mo, hmod, by rw [hff]; simpa using hn⟩)
      · exact Or.inr (Or.inr ⟨mo, fo, hmod, by rw [hff]; simpa using hsome, hnc⟩)
    obtain ⟨h1, h2⟩ := init_fail_out env cfg s hbroken
    obtain ⟨h10, h20⟩ := init_fail_out env cfg st0 hbroken
    have hne : ¬((init env cfg st0).ret = 0) := by rw [h10]; decide
    rw [runStage_fail env cfg tb frames hne]
    exact ⟨h1, countForwards_init env cfg st0, h20⟩

/-- C9 witness: the invariant at a concrete successful activation. -/
theorem C9_binding_invariant_witness :
    (init envA cfgC st0).ret = 0 ∧
    (init envA cfgC st0).bound.pModule = some ⟨1, 10⟩ ∧
    (init envA cfgC st0).bound.pFunc = some ⟨2, 20⟩ := by
  have h := C9_binding_invariant envA cfgC tbA [frA] st0 "demo" 10 "process"
    rfl (by decide) rfl
  have hs := h.1 20 (by decide) (by decide) (by intro i2 h2; simp [cfgC] at h2)
  exact ⟨hs.1, hs.2.1, hs.2.2.1⟩

/-- C10: when `init_function` is set and resolves to a callable but
`init_args` is unset (NULL), `check_and_call_init` still builds the
one-element argument tuple by decoding the NULL `init_args` pointer
(`PyUnicode_DecodeFSDefault(NULL)` — there is no null guard), and invokes
the initializer with that decoded-null value. -/
theorem C10_null_init_args (env : PyEnv) (m : PyRef) (iname : String) (io : ℕ) (s : PyIState)
    (ha : env.attrObj m.obj iname = some io) (hc : env.callable io = true) :
    PyEvent.evDecodeFS none ∈ (check_and_call_init env (some m) (some iname) none s).tr ∧
    countCallsWith (check_and_call_init env (some m) (some iname) none s).tr
      [PyVal.str none] = 1 := by
  constructor
  · rw [chkInit_resolved env m iname none s io ha hc]
    simp
  · exact countCallsWith_chkInit_eq env m iname none s io ha hc

/-- C10 witness: the decode of the NULL `init_args` at a concrete
configuration with a resolvable callable initializer. -/
theorem C10_null_init_args_witness :
    envA.attrObj 10 "setup" = some 30 ∧
    PyEvent.evDecodeFS none ∈
      (check_and_call_init envA (some ⟨1, 10⟩) (some "setup") none ⟨3, false⟩).tr := by
  have h := C10_null_init_args envA ⟨1, 10⟩ "setup" 30 ⟨3, false⟩ (by decide) (by decide)
  exact ⟨by decide, h.1⟩

end VfPython
